import Mathlib

/-!
Shallow embedding of the T2S e-commerce API (Flask/SQLAlchemy) core:
the order-placement handler `OrderResource.post` / `OrderResource.get`
(src/resources/orders.py) and the catalog handlers `ProductList.post`,
`ProductDetail.delete` (src/resources/products.py), together with proofs
about the stock invariant, atomicity of failures, the price snapshot,
response encoding and the (absent) concurrency control.

The SQLAlchemy models module is not part of the sources; following the
spec's data model, `price` is embedded as a rational (exact decimal
semantics) and `stock` and `quantity` as integers.
-/

namespace T2S

/-- A row of the `Product` table. Fields as used by the resource handlers:
`id` (primary key), `name`, `description`, `price`, `stock`. -/
structure Product where
  id : Int
  name : String
  description : String
  price : Rat
  stock : Int
  deriving Repr, DecidableEq

/-- A row of the `Order` table: `id` (primary key), `user_id`, `product_id`,
`quantity`, `total_price`, exactly the fields `OrderResource.post` sets. -/
structure Order where
  id : Int
  user_id : Int
  product_id : Int
  quantity : Int
  total_price : Rat
  deriving Repr, DecidableEq

/-- The database state: the products table, the orders table (in insertion
order, as SQLAlchemy appends committed rows), and the autoincrement counters
for the two primary keys. -/
structure DB where
  products : List Product
  orders : List Order
  nextProductId : Int
  nextOrderId : Int
  deriving Repr, DecidableEq

/-- A JSON response body, restricted to the shapes the handlers produce:
a `{"message": ...}` object, an order object `{id, product_id, quantity,
total_price}`, or a list of such order objects. -/
inductive Body where
  | message (s : String)
  | orderJson (id product_id quantity : Int) (total_price : Rat)
  | ordersJson (l : List (Int × Int × Int × Rat))
  deriving Repr, DecidableEq

/-- An HTTP response: status code and body. -/
structure Response where
  status : Nat
  body : Body
  deriving Repr, DecidableEq

/-- `Product.query.get_or_404(pid)` / `Product.query.get(pid)`: primary-key
lookup in the products table. -/
def getProduct (db : DB) (pid : Int) : Option Product :=
  db.products.find? (fun p => p.id = pid)

/-- Write back a mutation of the ORM object fetched by primary key: the first
(in a real database, only) row whose `id` matches is replaced by `f` of it. -/
def updateFirst (l : List Product) (pid : Int) (f : Product → Product) :
    List Product :=
  match l with
  | [] => []
  | p :: ps => if p.id = pid then f p :: ps else p :: updateFirst ps pid f

/-- The read phase of `OrderResource.post`: `Product.query.get_or_404` loads
the product row into the request's session as an in-memory object; the rest
of the handler acts on this snapshot. -/
def orderPostRead (db : DB) (product_id : Int) : Option Product :=
  getProduct db product_id

/-- The remainder of `OrderResource.post` after the session read, acting on
the in-memory snapshot `product`: reject with 400 `"Not enough stock"` when
`product.stock < data['quantity']`, otherwise compute
`total_price = product.price * data['quantity']`, build the new order, set
the row's stock to the snapshot's stock minus the quantity
(`product.stock -= data['quantity']`) and commit, answering 201
`"Order placed successfully"`. -/
def orderPostFinish (db : DB) (product : Product) (user_id quantity : Int) :
    Response × DB :=
  if product.stock < quantity then
    (⟨400, Body.message "Not enough stock"⟩, db)
  else
    let total_price : Rat := product.price * (quantity : Rat)
    let new_order : Order :=
      ⟨db.nextOrderId, user_id, product.id, quantity, total_price⟩
    (⟨201, Body.message "Order placed successfully"⟩,
     { db with
        products := updateFirst db.products product.id
          (fun p => { p with stock := product.stock - quantity }),
        orders := db.orders ++ [new_order],
        nextOrderId := db.nextOrderId + 1 })

/-- `OrderResource.post` (src/resources/orders.py), run to completion without
interleaving: the session read followed by the check/compute/commit phase
(404 when the product is absent). Returns the response and the new state. -/
def orderResourcePost (db : DB) (user_id product_id quantity : Int) :
    Response × DB :=
  match orderPostRead db product_id with
  | none => (⟨404, Body.message "Not found"⟩, db)
  | some product => orderPostFinish db product user_id quantity

/-- The result of `Order.query.filter_by(user_id=user_id).all()` in
`OrderResource.get`. -/
def ordersFilterByUser (db : DB) (user_id : Int) : List Order :=
  db.orders.filter (fun o => o.user_id = user_id)

/-- The JSON encoding of one order used by `OrderResource.get`:
`{"id": o.id, "product_id": o.product_id, "quantity": o.quantity,
"total_price": o.total_price}`. -/
def encodeOrder (o : Order) : Int × Int × Int × Rat :=
  (o.id, o.product_id, o.quantity, o.total_price)

/-- `OrderResource.get` (src/resources/orders.py): jsonify the caller's
orders, filtered by the authenticated `user_id`. -/
def orderResourceGet (db : DB) (user_id : Int) : Response :=
  ⟨200, Body.ordersJson ((ordersFilterByUser db user_id).map encodeOrder)⟩

/-- `ProductList.post` (src/resources/products.py): build a product from the
request's `name`, `description`, `price`, `stock` fields — with no
validation — add it to the session and commit. -/
def productListPost (db : DB) (name descr : String) (price : Rat)
    (stock : Int) : Response × DB :=
  (⟨201, Body.message "Product added successfully"⟩,
   { db with
      products := db.products ++ [⟨db.nextProductId, name, descr, price, stock⟩],
      nextProductId := db.nextProductId + 1 })

/-- `ProductDetail.delete` (src/resources/products.py): look the product up
(404 when absent), delete the row and commit. -/
def productDetailDelete (db : DB) (product_id : Int) : Response × DB :=
  match getProduct db product_id with
  | none => (⟨404, Body.message "Not found"⟩, db)
  | some _ =>
    (⟨200, Body.message "Product deleted successfully"⟩,
     { db with products := db.products.filter (fun p => ¬ p.id = product_id) })

/-- The state-mutating operations of the API that can touch products or
orders, for quantification over "any later operation". -/
inductive Op where
  | placeOrder (user_id product_id quantity : Int)
  | createProduct (name descr : String) (price : Rat) (stock : Int)
  | deleteProduct (product_id : Int)
  deriving Repr, DecidableEq

/-- Apply one operation to the state, discarding the response. -/
def applyOp (op : Op) (db : DB) : DB :=
  match op with
  | Op.placeOrder u pid q => (orderResourcePost db u pid q).2
  | Op.createProduct n d pr s => (productListPost db n d pr s).2
  | Op.deleteProduct pid => (productDetailDelete db pid).2

/-- The stock invariant of the spec: every product row has `stock >= 0`. -/
def stockInvariant (db : DB) : Prop :=
  ∀ p ∈ db.products, 0 ≤ p.stock

instance (db : DB) : Decidable (stockInvariant db) :=
  List.decidableBAll _ db.products

/-- The empty database. -/
def emptyDB : DB := ⟨[], [], 1, 1⟩

/-- The product of Scenario A: `{id:1, price:10.00, stock:5}`. -/
def wA : Product := ⟨1, "widget", "a widget", 10, 5⟩

/-- Scenario A's initial state: the single product
`{id:1, price:10.00, stock:5}`. -/
def dbA : DB := ⟨[wA], [], 2, 1⟩

/-- Modelled from the spec (the created-order response encoding of
`POST /orders`, which the sources do not produce): the 201 body the spec
prescribes — the created order encoded as
`{id, product_id, quantity, total_price}`. -/
def specCreatedOrderBody (o : Order) : Body :=
  Body.orderJson o.id o.product_id o.quantity o.total_price

end T2S

namespace T2S

/-- A successful primary-key lookup splits the products table: the found row
is the first with that id, and writing a mutation of it back replaces exactly
that row. -/
theorem find?_decompose (l : List Product) (pid : Int) (p : Product)
    (h : l.find? (fun x => x.id = pid) = some p) :
    p.id = pid ∧ ∃ l1 l2, (∀ x ∈ l1, x.id ≠ pid) ∧ l = l1 ++ p :: l2 ∧
      ∀ f : Product → Product, updateFirst l pid f = l1 ++ f p :: l2 := by
  induction l with
  | nil => simp at h
  | cons a as ih =>
    by_cases ha : a.id = pid
    · rw [List.find?_cons_of_pos _ (by simpa using ha)] at h
      cases h
      exact ⟨ha, [], as, by simp, rfl, fun f => by simp [updateFirst, ha]⟩
    · rw [List.find?_cons_of_neg _ (by simpa using ha)] at h
      obtain ⟨hp, l1, l2, hl1, hsplit, hupd⟩ := ih h
      exact ⟨hp, a :: l1, l2, by simpa [ha] using hl1, by simp [hsplit],
        fun f => by simp [updateFirst, ha, hupd f]⟩

/-- Every state-mutating operation of the API leaves the existing order rows
in place unmodified: the orders table only ever grows at the end. -/
theorem applyOp_orders_extend (op : Op) (db : DB) :
    ∃ l, (applyOp op db).orders = db.orders ++ l := by
  cases op with
  | placeOrder u pid q =>
    simp only [applyOp, orderResourcePost]
    cases hr : orderPostRead db pid with
    | none => exact ⟨[], by simp⟩
    | some p =>
      simp only [orderPostFinish]
      by_cases h : p.stock < q
      · simp [h]
      · exact ⟨[⟨db.nextOrderId, u, p.id, q, p.price * (q : Rat)⟩], by simp [h]⟩
  | createProduct n d pr s => exact ⟨[], by simp [applyOp, productListPost]⟩
  | deleteProduct pid =>
    simp only [applyOp, productDetailDelete]
    cases hg : getProduct db pid with
    | none => exact ⟨[], by simp⟩
    | some p => exact ⟨[], by simp⟩

/-- C1 (counterexample): product creation does not preserve the `stock >= 0`
invariant — `ProductList.post` copies the request's `stock` field into the
new row unvalidated, so creating a product with stock `-1` in a state
satisfying the invariant yields a state violating it. -/
theorem C1_counterexample :
    stockInvariant emptyDB ∧
    ¬ stockInvariant (applyOp (Op.createProduct "x" "y" 1 (-1)) emptyDB) := by
  decide

/-- C1 (amended): order placement and product deletion preserve the
`stock >= 0` invariant unconditionally, and product creation preserves it
exactly when the stock supplied in the request is non-negative. -/
theorem C1_preserved_amended (db : DB) (hinv : stockInvariant db) :
    (∀ u pid q, stockInvariant (orderResourcePost db u pid q).2) ∧
    (∀ pid, stockInvariant (productDetailDelete db pid).2) ∧
    (∀ n d pr s, 0 ≤ s → stockInvariant (productListPost db n d pr s).2) := by
  refine ⟨fun u pid q => ?_, fun pid => ?_, fun n d pr s hs => ?_⟩
  · simp only [orderResourcePost]
    cases hr : orderPostRead db pid with
    | none => exact hinv
    | some p =>
      simp only [orderPostFinish]
      by_cases hlt : p.stock < q
      · simpa [hlt] using hinv
      · simp only [if_neg hlt]
        obtain ⟨hp, l1, l2, hl1, hsplit, hupd⟩ := find?_decompose db.products pid p hr
        intro x hx
        simp only [hp, hupd] at hx
        have hinv2 : ∀ y ∈ l1 ++ p :: l2, (0 : Int) ≤ y.stock := by
          rw [← hsplit]; exact hinv
        rcases List.mem_append.1 hx with hx1 | hx2
        · exact hinv2 x (List.mem_append.2 (Or.inl hx1))
        · rcases List.mem_cons.1 hx2 with rfl | hx3
          · have := hinv2 p (List.mem_append.2 (Or.inr (List.mem_cons_self _ _)))
            simp only at this ⊢
            omega
          · exact hinv2 x (List.mem_append.2 (Or.inr (List.mem_cons_of_mem _ hx3)))
  · simp only [productDetailDelete]
    cases hg : getProduct db pid with
    | none => exact hinv
    | some p =>
      intro x hx
      exact hinv x (List.mem_of_mem_filter hx)
  · intro x hx
    rcases List.mem_append.1 hx with hx1 | hx2
    · exact hinv x hx1
    · rcases List.mem_cons.1 hx2 with rfl | h
      · exact hs
      · simp at h

/-- Witness for C1's amended theorem at Scenario A's state. -/
theorem C1_witness :
    stockInvariant (orderResourcePost dbA 42 1 3).2 :=
  (C1_preserved_amended dbA (by decide)).1 42 1 3

/-- C2: when `OrderResource.post` answers 400 (insufficient stock) or 404
(product absent), the database state is returned unchanged — no stock
mutation and no appended order. -/
theorem C2_failure_no_mutation (db : DB) (u pid q : Int)
    (h : (orderResourcePost db u pid q).1.status = 400 ∨
         (orderResourcePost db u pid q).1.status = 404) :
    (orderResourcePost db u pid q).2 = db := by
  simp only [orderResourcePost] at h ⊢
  cases hr : orderPostRead db pid with
  | none => simp
  | some p =>
    rw [hr] at h
    simp only [orderPostFinish] at h ⊢
    by_cases hs : p.stock < q
    · simp [hs]
    · exfalso
      simp only [if_neg hs] at h
      rcases h with h | h <;> omega

/-- Witness for C2 at Scenario A's state with an oversized quantity. -/
theorem C2_witness : (orderResourcePost dbA 42 1 9).2 = dbA :=
  C2_failure_no_mutation dbA 42 1 9 (Or.inl (by decide))

/-- C3 (counterexample): `OrderResource.post` performs no quantity
validation — a request with quantity 0 against Scenario A's product is not
rejected: it answers 201 and appends a zero-quantity order. -/
theorem C3_counterexample :
    (orderResourcePost dbA 42 1 0).1.status = 201 ∧
    (orderResourcePost dbA 42 1 0).2.orders = [⟨1, 42, 1, 0, 0⟩] := by
  refine ⟨by decide, ?_⟩
  simp [orderResourcePost, orderPostRead, getProduct, orderPostFinish, dbA, wA,
    List.find?]

/-- C3 (amended): a request with non-positive quantity against an existing
product with non-negative stock passes the stock check (stock < quantity is
false) and succeeds with 201, appending an order with that non-positive
quantity. -/
theorem C3_no_validation_amended (db : DB) (u pid q : Int) (p : Product)
    (h : getProduct db pid = some p) (hq : q ≤ 0) (hstock : 0 ≤ p.stock) :
    (orderResourcePost db u pid q).1.status = 201 ∧
    (orderResourcePost db u pid q).2.orders =
      db.orders ++ [⟨db.nextOrderId, u, p.id, q, p.price * (q : Rat)⟩] := by
  have hns : ¬ p.stock < q := by omega
  simp [orderResourcePost, orderPostRead, h, orderPostFinish, hns]

/-- Witness for C3's amended theorem: quantity 0 at Scenario A's state. -/
theorem C3_witness :
    (orderResourcePost dbA 42 1 0).1.status = 201 ∧
    (orderResourcePost dbA 42 1 0).2.orders =
      dbA.orders ++ [⟨dbA.nextOrderId, 42, wA.id, 0, wA.price * ((0 : Int) : Rat)⟩] :=
  C3_no_validation_amended dbA 42 1 0 wA rfl (by decide) (by decide)

/-- C4: a successful `OrderResource.post` appends an order whose
`total_price` is the product's price (as read before the decrement) times
the quantity, and no later operation of the API modifies any existing order
row — the orders table only grows, so the stored snapshot survives later
product deletion or any other operation. -/
theorem C4_price_snapshot (db : DB) (u pid q : Int) (p : Product)
    (h : getProduct db pid = some p) (hs : ¬ p.stock < q) :
    ((orderResourcePost db u pid q).2.orders =
       db.orders ++ [⟨db.nextOrderId, u, p.id, q, p.price * (q : Rat)⟩]) ∧
    ∀ op : Op, ∃ l, (applyOp op (orderResourcePost db u pid q).2).orders =
      (orderResourcePost db u pid q).2.orders ++ l := by
  refine ⟨?_, fun op => applyOp_orders_extend op _⟩
  simp [orderResourcePost, orderPostRead, h, orderPostFinish, hs]

/-- Witness for C4 at Scenario A's state. -/
theorem C4_witness :
    ((orderResourcePost dbA 42 1 3).2.orders =
       dbA.orders ++ [⟨dbA.nextOrderId, 42, wA.id, 3, wA.price * ((3 : Int) : Rat)⟩]) ∧
    ∀ op : Op, ∃ l, (applyOp op (orderResourcePost dbA 42 1 3).2).orders =
      (orderResourcePost dbA 42 1 3).2.orders ++ l :=
  C4_price_snapshot dbA 42 1 3 wA rfl (by decide)

/-- C5: the handler's stock check-and-decrement is not atomic. In the
interleaving where both session reads precede both commit phases, two
quantity-3 orders against Scenario A's stock-5 product both observe stock 5,
both answer 201, and 6 units are sold against an initial stock of 5 (the
final stock is the stale write 2) — the claim's "exactly one succeeds" fails
on the code. -/
theorem C5_lost_update_interleaving :
    orderPostRead dbA 1 = some wA ∧
    (orderPostFinish dbA wA 42 3).1.status = 201 ∧
    (orderPostFinish (orderPostFinish dbA wA 42 3).2 wA 43 3).1.status = 201 ∧
    getProduct (orderPostFinish (orderPostFinish dbA wA 42 3).2 wA 43 3).2 1 =
      some { wA with stock := 2 } ∧
    ((orderPostFinish (orderPostFinish dbA wA 42 3).2 wA 43 3).2.orders.map
        Order.quantity).sum = 6 := by
  refine ⟨rfl, by decide, by decide, by decide, by decide⟩

/-- C6 (Scenario A): against the product `{id:1, price:10.00, stock:5}`,
placing an order for user 42, product 1, quantity 3 answers 201, records the
order `{product_id:1, quantity:3, total_price:30.00}`, and leaves the
product's stock at 2. -/
theorem C6_scenario_A :
    (orderResourcePost dbA 42 1 3).1.status = 201 ∧
    (orderResourcePost dbA 42 1 3).2.orders = [⟨1, 42, 1, 3, 30⟩] ∧
    getProduct (orderResourcePost dbA 42 1 3).2 1 = some { wA with stock := 2 } := by
  refine ⟨by decide, ?_, ?_⟩
  · simp [orderResourcePost, orderPostRead, orderPostFinish, getProduct,
      updateFirst, dbA, wA, List.find?]
    norm_num
  · simp [orderResourcePost, orderPostRead, orderPostFinish, getProduct,
      updateFirst, dbA, wA, List.find?]

/-- C7 (counterexample): the 201 response of `OrderResource.post` carries the
body `{"message": "Order placed successfully"}`, not the created order
encoded as `{id, product_id, quantity, total_price}` that the spec
prescribes. -/
theorem C7_counterexample :
    (orderResourcePost dbA 42 1 3).2.orders = [⟨1, 42, 1, 3, 30⟩] ∧
    (orderResourcePost dbA 42 1 3).1.body ≠
      specCreatedOrderBody ⟨1, 42, 1, 3, 30⟩ := by
  refine ⟨?_, by decide⟩
  simp [orderResourcePost, orderPostRead, getProduct, orderPostFinish, dbA, wA,
    List.find?]
  norm_num

/-- C7 (amended): for an existing product, a sufficient-stock request gets
response 201 with body `{"message": "Order placed successfully"}`, and an
insufficient-stock request gets 400 with body
`{"message": "Not enough stock"}`. -/
theorem C7_responses_amended (db : DB) (u pid q : Int) (p : Product)
    (h : getProduct db pid = some p) :
    (¬ p.stock < q → (orderResourcePost db u pid q).1 =
        ⟨201, Body.message "Order placed successfully"⟩) ∧
    (p.stock < q → (orderResourcePost db u pid q).1 =
        ⟨400, Body.message "Not enough stock"⟩) := by
  constructor <;> intro hs <;>
    simp [orderResourcePost, orderPostRead, h, orderPostFinish, hs]

/-- Witness for C7's amended theorem at Scenario A's state. -/
theorem C7_witness :
    (¬ wA.stock < 3 → (orderResourcePost dbA 42 1 3).1 =
        ⟨201, Body.message "Order placed successfully"⟩) ∧
    (wA.stock < 3 → (orderResourcePost dbA 42 1 3).1 =
        ⟨400, Body.message "Not enough stock"⟩) :=
  C7_responses_amended dbA 42 1 3 wA rfl

/-- C8: `OrderResource.get` returns exactly the caller's orders — an order is
in the filtered query result iff it is in the orders table and owned by the
caller, and the response body is that result encoded as
`{id, product_id, quantity, total_price}` objects. -/
theorem C8_get_own_orders (db : DB) (u : Int) :
    (∀ o : Order, o ∈ ordersFilterByUser db u ↔ o ∈ db.orders ∧ o.user_id = u) ∧
    orderResourceGet db u =
      ⟨200, Body.ordersJson ((ordersFilterByUser db u).map encodeOrder)⟩ := by
  refine ⟨fun o => ?_, rfl⟩
  simp [ordersFilterByUser, List.mem_filter]

/-- C9 (frame): a successful `OrderResource.post` changes only the targeted
product row — every product before and after it is untouched, the targeted
row keeps its id, name, description and price and only its stock is
decremented — and appends exactly one order, leaving the product id counter
alone. -/
theorem C9_frame (db : DB) (u pid q : Int) (p : Product)
    (h : getProduct db pid = some p) (hs : ¬ p.stock < q) :
    ∃ l1 l2,
      db.products = l1 ++ p :: l2 ∧
      (orderResourcePost db u pid q).2.products =
        l1 ++ { p with stock := p.stock - q } :: l2 ∧
      (orderResourcePost db u pid q).2.orders =
        db.orders ++ [⟨db.nextOrderId, u, p.id, q, p.price * (q : Rat)⟩] ∧
      (orderResourcePost db u pid q).2.nextProductId = db.nextProductId := by
  obtain ⟨hp, l1, l2, hl1, hsplit, hupd⟩ := find?_decompose db.products pid p h
  refine ⟨l1, l2, hsplit, ?_, ?_, ?_⟩ <;>
    simp [orderResourcePost, orderPostRead, h, orderPostFinish, hs, hp, hupd]

/-- Witness for C9 at Scenario A's state. -/
theorem C9_witness :
    ∃ l1 l2,
      dbA.products = l1 ++ wA :: l2 ∧
      (orderResourcePost dbA 42 1 3).2.products =
        l1 ++ { wA with stock := wA.stock - 3 } :: l2 ∧
      (orderResourcePost dbA 42 1 3).2.orders =
        dbA.orders ++ [⟨dbA.nextOrderId, 42, wA.id, 3, wA.price * ((3 : Int) : Rat)⟩] ∧
      (orderResourcePost dbA 42 1 3).2.nextProductId = dbA.nextProductId :=
  C9_frame dbA 42 1 3 wA rfl (by decide)

/-- C10: when the requested quantity is positive and exactly equals the
product's stock, the strict `stock < quantity` check does not fire:
the order succeeds with 201 and the product's stock becomes 0. -/
theorem C10_exact_stock_succeeds (db : DB) (u pid q : Int) (p : Product)
    (h : getProduct db pid = some p) (hq : 0 < q) (he : p.stock = q) :
    (orderResourcePost db u pid q).1.status = 201 ∧
    getProduct (orderResourcePost db u pid q).2 pid = some { p with stock := 0 } := by
  obtain ⟨hp, l1, l2, hl1, hsplit, hupd⟩ := find?_decompose db.products pid p h
  have hns : ¬ p.stock < q := by omega
  refine ⟨by simp [orderResourcePost, orderPostRead, h, orderPostFinish, hns], ?_⟩
  have hrd : orderPostRead db pid = some p := h
  simp only [orderResourcePost, hrd, orderPostFinish, if_neg hns, getProduct, hp, hupd]
  rw [List.find?_append, List.find?_eq_none.2 (by intro x hx; simpa using hl1 x hx)]
  simp [hp, he]

/-- Witness for C10: quantity 5 against Scenario A's stock-5 product. -/
theorem C10_witness :
    (orderResourcePost dbA 42 1 5).1.status = 201 ∧
    getProduct (orderResourcePost dbA 42 1 5).2 1 = some { wA with stock := 0 } :=
  C10_exact_stock_succeeds dbA 42 1 5 wA rfl (by decide) (by decide)

end T2S
